import Mathlib

/-!
Verification of the gantt repository (a Python project generating Gantt
charts from CSV task data).  This file gives a shallow embedding of the
data model and the operations of the repository and proves properties of
them.  Calendar dates are embedded as year/month/day triples; Python
`date` comparison and subtraction both act through the proleptic Gregorian
ordinal (`date.toordinal`), which is embedded as `Date.toOrdinal` below.
-/

namespace Gantt

/-- A calendar date, embedding Python `datetime.date` (year, month, day). -/
structure Date where
  year : Int
  month : Nat
  day : Nat
deriving DecidableEq, Repr

/-- Leap-year rule of the Gregorian calendar (Python `calendar.isleap`). -/
def isLeapYear (y : Int) : Bool :=
  y % 4 == 0 && (y % 100 != 0 || y % 400 == 0)

/-- Number of days in month `m` of year `y` (months are 1-based). -/
def daysInMonth (y : Int) (m : Nat) : Nat :=
  if m = 2 then (if isLeapYear y then 29 else 28)
  else if m = 4 ∨ m = 6 ∨ m = 9 ∨ m = 11 then 30
  else 31

/-- Days in the full years strictly before year `y`
(Python `datetime._days_before_year`; `//` is floor division, which for the
positive divisors 4, 100, 400 agrees with `Int.ediv`). -/
def daysBeforeYear (y : Int) : Int :=
  (y - 1) * 365 + Int.ediv (y - 1) 4 - Int.ediv (y - 1) 100 + Int.ediv (y - 1) 400

/-- Days in the months of year `y` strictly before month `m`
(Python `datetime._days_before_month`). -/
def daysBeforeMonth (y : Int) (m : Nat) : Nat :=
  ((List.range (m - 1)).map (fun i => daysInMonth y (i + 1))).sum

/-- Python `date.toordinal`: day count in the proleptic Gregorian calendar,
with 0001-01-01 having ordinal 1.  Python `date` comparison and `date`
subtraction (`(a - b).days`) are both determined by this ordinal. -/
def Date.toOrdinal (d : Date) : Int :=
  daysBeforeYear d.year + (daysBeforeMonth d.year d.month : Int) + (d.day : Int)

/-- Python `a < b` on dates (equal, for valid dates, to ordinal order). -/
def dateLt (a b : Date) : Prop := a.toOrdinal < b.toOrdinal

/-- Python `a <= b` on dates. -/
def dateLe (a b : Date) : Prop := a.toOrdinal ≤ b.toOrdinal

instance (a b : Date) : Decidable (dateLt a b) := Int.decLt _ _
instance (a b : Date) : Decidable (dateLe a b) := Int.decLe _ _

/-! ### `models.py`: the `Task` data class -/

/-- A task, embedding the `Task` dataclass of
`aarons-attempt/src/models.py`. -/
structure Task where
  id : String
  name : String
  startDate : Date
  dueDate : Date
  category : String
  dependencies : String
  notes : String
  isMilestone : Bool
deriving DecidableEq, Repr

/-- `config.tasks.name_prefixes_to_remove` from
`aarons-attempt/src/config.py`. -/
def namePrefixesToRemove : List String :=
  ["Milestone: ", "Draft ", "Complete "]

/-- `Task._clean_name`: strips the first matching configured name start
and stops after the first hit (`break`). -/
def cleanName (name : String) : String :=
  match namePrefixesToRemove.find? (fun p => p.isPrefixOf name) with
  | some p => name.drop p.length
  | none => name

/-- The `Task` constructor together with `Task.__post_init__`
(`_clean_name`, `_validate_dates`, `_determine_milestone`): a `ValueError`
is embedded as `Except.error` carrying the message. -/
def mkTask (id name : String) (startDate dueDate : Date)
    (category dependencies notes : String) : Except String Task :=
  let cleaned := cleanName name
  if dateLt dueDate startDate then
    .error ("Task " ++ cleaned ++ ": start date cannot be after due date")
  else if dateLt startDate (Date.mk 2020 1 1) then
    .error ("Task " ++ cleaned ++ ": start date is too far in the past")
  else if dateLt (Date.mk 2030 12 31) dueDate then
    .error ("Task " ++ cleaned ++ ": due date is too far in the future")
  else
    .ok { id := id, name := cleaned, startDate := startDate, dueDate := dueDate,
          category := category, dependencies := dependencies, notes := notes,
          isMilestone := startDate == dueDate }

/-! ### `models.py`: the `ProjectTimeline` data class -/

/-- The complete project timeline, embedding the `ProjectTimeline`
dataclass of `aarons-attempt/src/models.py`. -/
structure ProjectTimeline where
  tasks : List Task
  title : String
  startDate : Date
  endDate : Date
deriving DecidableEq, Repr

/-- Python `min` over a non-empty sequence of dates: the fold keeps the
current value unless a strictly smaller one appears. -/
def pyMinDate (x : Date) (xs : List Date) : Date :=
  xs.foldl (fun acc d => if dateLt d acc then d else acc) x

/-- Python `max` over a non-empty sequence of dates. -/
def pyMaxDate (x : Date) (xs : List Date) : Date :=
  xs.foldl (fun acc d => if dateLt acc d then d else acc) x

/-- The `ProjectTimeline` constructor together with
`ProjectTimeline.__post_init__`: rejects an empty task list and
recalculates `start_date`/`end_date` as min/max over the tasks,
discarding the values passed in. -/
def mkProjectTimeline (tasks : List Task) (title : String)
    (startDate endDate : Date) : Except String ProjectTimeline :=
  match tasks with
  | [] => .error "Timeline must contain at least one task"
  | t :: ts =>
      .ok { tasks := t :: ts, title := title,
            startDate := pyMinDate t.startDate (ts.map Task.startDate),
            endDate := pyMaxDate t.dueDate (ts.map Task.dueDate) }

theorem pyMinDate_mem (x : Date) (xs : List Date) : pyMinDate x xs ∈ x :: xs := by
  induction xs generalizing x with
  | nil => simp [pyMinDate]
  | cons y ys ih =>
    have h := ih (if dateLt y x then y else x)
    simp only [pyMinDate, List.foldl_cons] at h ⊢
    rcases List.mem_cons.mp h with h1 | h1
    · rw [h1]
      by_cases hc : dateLt y x <;> simp [hc]
    · simp [List.mem_cons, Or.inr (Or.inr h1)]

theorem pyMinDate_le (x : Date) (xs : List Date) :
    (pyMinDate x xs).toOrdinal ≤ x.toOrdinal ∧
      ∀ d ∈ xs, (pyMinDate x xs).toOrdinal ≤ d.toOrdinal := by
  induction xs generalizing x with
  | nil => simp [pyMinDate]
  | cons y ys ih =>
    have h := ih (if dateLt y x then y else x)
    simp only [pyMinDate, List.foldl_cons] at h ⊢
    have hx : (if dateLt y x then y else x).toOrdinal ≤ x.toOrdinal := by
      by_cases hc : dateLt y x
      · simpa [hc] using le_of_lt hc
      · simp [hc]
    have hy : (if dateLt y x then y else x).toOrdinal ≤ y.toOrdinal := by
      by_cases hc : dateLt y x
      · simp [hc]
      · simpa [hc] using not_lt.mp hc
    refine ⟨le_trans h.1 hx, ?_⟩
    intro d hd
    rcases List.mem_cons.mp hd with h1 | h1
    · rw [h1]; exact le_trans h.1 hy
    · exact h.2 d h1

theorem pyMaxDate_mem (x : Date) (xs : List Date) : pyMaxDate x xs ∈ x :: xs := by
  induction xs generalizing x with
  | nil => simp [pyMaxDate]
  | cons y ys ih =>
    have h := ih (if dateLt x y then y else x)
    simp only [pyMaxDate, List.foldl_cons] at h ⊢
    rcases List.mem_cons.mp h with h1 | h1
    · rw [h1]
      by_cases hc : dateLt x y <;> simp [hc]
    · simp [List.mem_cons, Or.inr (Or.inr h1)]

theorem pyMaxDate_ge (x : Date) (xs : List Date) :
    x.toOrdinal ≤ (pyMaxDate x xs).toOrdinal ∧
      ∀ d ∈ xs, d.toOrdinal ≤ (pyMaxDate x xs).toOrdinal := by
  induction xs generalizing x with
  | nil => simp [pyMaxDate]
  | cons y ys ih =>
    have h := ih (if dateLt x y then y else x)
    simp only [pyMaxDate, List.foldl_cons] at h ⊢
    have hx : x.toOrdinal ≤ (if dateLt x y then y else x).toOrdinal := by
      by_cases hc : dateLt x y
      · simpa [hc] using le_of_lt hc
      · simp [hc]
    have hy : y.toOrdinal ≤ (if dateLt x y then y else x).toOrdinal := by
      by_cases hc : dateLt x y
      · simp [hc]
      · simpa [hc] using not_lt.mp hc
    refine ⟨le_trans hx h.1, ?_⟩
    intro d hd
    rcases List.mem_cons.mp hd with h1 | h1
    · rw [h1]; exact le_trans hy h.1
    · exact h.2 d h1

deriving instance DecidableEq for Except

/-- A concrete task used in witnesses. -/
def taskA : Task :=
  { id := "A", name := "A", startDate := Date.mk 2024 3 1,
    dueDate := Date.mk 2024 3 9, category := "", dependencies := "",
    notes := "", isMilestone := false }

/-- A concrete task used in witnesses. -/
def taskB : Task :=
  { id := "B", name := "B", startDate := Date.mk 2024 2 1,
    dueDate := Date.mk 2024 2 5, category := "", dependencies := "",
    notes := "", isMilestone := false }

/-- C1: For every Task whose construction succeeds, start_date ≤ due_date
holds and is_milestone equals (start_date == due_date); constructing a
Task with start_date > due_date raises ValueError. -/
theorem task_construction_invariant :
    (∀ id name s d cat dep n t, mkTask id name s d cat dep n = .ok t →
        t.startDate.toOrdinal ≤ t.dueDate.toOrdinal ∧
        t.isMilestone = (t.startDate == t.dueDate)) ∧
    (∀ id name s d cat dep n, d.toOrdinal < s.toOrdinal →
        ∃ msg, mkTask id name s d cat dep n = .error msg) := by
  constructor
  · intro id name s d cat dep n t h
    simp only [mkTask] at h
    split_ifs at h with h1 h2 h3
    cases h
    exact ⟨not_lt.mp h1, rfl⟩
  · intro id name s d cat dep n hlt
    simp only [mkTask]
    split_ifs with h1 h2 h3
    · exact ⟨_, rfl⟩
    · exact absurd hlt h1
    · exact absurd hlt h1
    · exact absurd hlt h1

/-- Witness for C1 at concrete inputs. -/
theorem task_construction_invariant_witness :
    ((Date.mk 2024 1 1).toOrdinal ≤ (Date.mk 2024 1 5).toOrdinal ∧
      (false : Bool) = (Date.mk 2024 1 1 == Date.mk 2024 1 5)) ∧
    (∃ msg, mkTask "T2" "Beta" (Date.mk 2024 1 5) (Date.mk 2024 1 1) "" "" ""
      = .error msg) :=
  ⟨task_construction_invariant.1 "T1" "Alpha" (Date.mk 2024 1 1) (Date.mk 2024 1 5)
      "" "" ""
      { id := "T1", name := "Alpha", startDate := Date.mk 2024 1 1,
        dueDate := Date.mk 2024 1 5, category := "", dependencies := "",
        notes := "", isMilestone := false } (by decide),
    task_construction_invariant.2 "T2" "Beta" (Date.mk 2024 1 5)
      (Date.mk 2024 1 1) "" "" "" (by decide)⟩

/-- C9: Constructing a Task raises ValueError not only when
start_date > due_date but also when start_date is before 2020-01-01 or
when due_date is after 2030-12-31; for every Task whose construction
succeeds, 2020-01-01 ≤ start_date and due_date ≤ 2030-12-31. -/
theorem task_date_range_validation :
    (∀ id name s d cat dep n t, mkTask id name s d cat dep n = .ok t →
        (Date.mk 2020 1 1).toOrdinal ≤ t.startDate.toOrdinal ∧
        t.dueDate.toOrdinal ≤ (Date.mk 2030 12 31).toOrdinal) ∧
    (∀ id name s d cat dep n, s.toOrdinal < (Date.mk 2020 1 1).toOrdinal →
        ∃ msg, mkTask id name s d cat dep n = .error msg) ∧
    (∀ id name s d cat dep n, (Date.mk 2030 12 31).toOrdinal < d.toOrdinal →
        ∃ msg, mkTask id name s d cat dep n = .error msg) := by
  refine ⟨?_, ?_, ?_⟩
  · intro id name s d cat dep n t h
    simp only [mkTask] at h
    split_ifs at h with h1 h2 h3
    cases h
    exact ⟨not_lt.mp h2, not_lt.mp h3⟩
  · intro id name s d cat dep n hlt
    simp only [mkTask]
    split_ifs with h1 h2 h3
    · exact ⟨_, rfl⟩
    · exact ⟨_, rfl⟩
    · exact ⟨_, rfl⟩
    · exact absurd hlt h2
  · intro id name s d cat dep n hlt
    simp only [mkTask]
    split_ifs with h1 h2 h3
    · exact ⟨_, rfl⟩
    · exact ⟨_, rfl⟩
    · exact ⟨_, rfl⟩
    · exact absurd hlt h3

/-- Witness for C9 at concrete inputs. -/
theorem task_date_range_validation_witness :
    ((Date.mk 2020 1 1).toOrdinal ≤ (Date.mk 2024 6 1).toOrdinal ∧
      (Date.mk 2024 6 10).toOrdinal ≤ (Date.mk 2030 12 31).toOrdinal) ∧
    (∃ msg, mkTask "T4" "Old" (Date.mk 2019 12 31) (Date.mk 2024 1 1) "" "" ""
      = .error msg) ∧
    (∃ msg, mkTask "T5" "Far" (Date.mk 2024 1 1) (Date.mk 2031 1 1) "" "" ""
      = .error msg) :=
  ⟨task_date_range_validation.1 "T3" "Mid" (Date.mk 2024 6 1) (Date.mk 2024 6 10)
      "" "" ""
      { id := "T3", name := "Mid", startDate := Date.mk 2024 6 1,
        dueDate := Date.mk 2024 6 10, category := "", dependencies := "",
        notes := "", isMilestone := false } (by decide),
    task_date_range_validation.2.1 "T4" "Old" (Date.mk 2019 12 31)
      (Date.mk 2024 1 1) "" "" "" (by decide),
    task_date_range_validation.2.2 "T5" "Far" (Date.mk 2024 1 1)
      (Date.mk 2031 1 1) "" "" "" (by decide)⟩

/-- C2: For every non-empty list of tasks, a constructed ProjectTimeline
has start_date equal to the minimum of its tasks' start_dates and
end_date equal to the maximum of its tasks' due_dates, regardless of the
start_date and end_date values passed to the constructor. -/
theorem timeline_dates_derived (tasks : List Task) (h : tasks ≠ [])
    (title : String) (s e s2 e2 : Date) :
    ∃ tl, mkProjectTimeline tasks title s e = .ok tl ∧
      mkProjectTimeline tasks title s2 e2 = .ok tl ∧
      tl.startDate ∈ tasks.map Task.startDate ∧
      (∀ t ∈ tasks, tl.startDate.toOrdinal ≤ t.startDate.toOrdinal) ∧
      tl.endDate ∈ tasks.map Task.dueDate ∧
      (∀ t ∈ tasks, t.dueDate.toOrdinal ≤ tl.endDate.toOrdinal) := by
  match tasks with
  | [] => exact absurd rfl h
  | t :: ts =>
    refine ⟨_, rfl, rfl, ?_, ?_, ?_, ?_⟩
    · simpa using pyMinDate_mem t.startDate (ts.map Task.startDate)
    · intro t' ht'
      rcases List.mem_cons.mp ht' with h1 | h1
      · rw [h1]
        exact (pyMinDate_le t.startDate (ts.map Task.startDate)).1
      · exact (pyMinDate_le t.startDate (ts.map Task.startDate)).2 _
          (List.mem_map_of_mem Task.startDate h1)
    · simpa using pyMaxDate_mem t.dueDate (ts.map Task.dueDate)
    · intro t' ht'
      rcases List.mem_cons.mp ht' with h1 | h1
      · rw [h1]
        exact (pyMaxDate_ge t.dueDate (ts.map Task.dueDate)).1
      · exact (pyMaxDate_ge t.dueDate (ts.map Task.dueDate)).2 _
          (List.mem_map_of_mem Task.dueDate h1)

/-- Witness for C2 at a concrete two-task list and two distinct pairs of
constructor-supplied dates. -/
theorem timeline_dates_derived_witness :
    ∃ tl, mkProjectTimeline [taskA, taskB] "T"
        (Date.mk 2029 1 1) (Date.mk 2029 1 2) = .ok tl ∧
      mkProjectTimeline [taskA, taskB] "T"
        (Date.mk 2021 7 7) (Date.mk 2022 8 8) = .ok tl ∧
      tl.startDate ∈ [taskA, taskB].map Task.startDate ∧
      (∀ t ∈ [taskA, taskB], tl.startDate.toOrdinal ≤ t.startDate.toOrdinal) ∧
      tl.endDate ∈ [taskA, taskB].map Task.dueDate ∧
      (∀ t ∈ [taskA, taskB], t.dueDate.toOrdinal ≤ tl.endDate.toOrdinal) :=
  timeline_dates_derived [taskA, taskB] (by simp) "T"
    (Date.mk 2029 1 1) (Date.mk 2029 1 2) (Date.mk 2021 7 7) (Date.mk 2022 8 8)

/-! ### `processor.py`: date parsing and CSV row processing

`DataProcessor._parse_date` calls the standard-library
`datetime.strptime`; the four format strings it uses are modelled below.
Python's `strptime` compiles each directive to a regular expression
(`%Y` = exactly four digits, `%m` = `1[0-2]|0[1-9]|[1-9]`,
`%d` = `3[01]|[12]\d|0[1-9]|[1-9]`, `%B` = a full month name matched
case-insensitively, a space = one or more whitespace characters), requires
the whole string to match, and then validates the resulting calendar date
(raising `ValueError`, i.e. yielding `none` here, on an impossible day of
month or a year outside 1..9999). -/

/-- Numeric value of a decimal digit character. -/
def digitVal (c : Char) : Nat := c.toNat - '0'.toNat

/-- Lower-case an ASCII letter (Python `str.lower` on ASCII input). -/
def asciiLowerChar (c : Char) : Char :=
  if 'A' ≤ c ∧ c ≤ 'Z' then Char.ofNat (c.toNat + 32) else c

/-- Python `str.lower` restricted to ASCII. -/
def asciiLower (s : String) : String := String.mk (s.data.map asciiLowerChar)

/-- `%Y`: exactly four decimal digits. -/
def takeYear4 : List Char → Option (Nat × List Char)
  | a :: b :: c :: d :: rest =>
    if a.isDigit ∧ b.isDigit ∧ c.isDigit ∧ d.isDigit then
      some (1000 * digitVal a + 100 * digitVal b + 10 * digitVal c + digitVal d,
            rest)
    else none
  | _ => none

/-- `%m` alternatives in regex order: `1[0-2]`, `0[1-9]`, `[1-9]`. -/
def monthCands : List Char → List (Nat × List Char)
  | a :: b :: rest =>
    (if a = '1' ∧ '0' ≤ b ∧ b ≤ '2' then [(10 + digitVal b, rest)] else []) ++
    (if a = '0' ∧ '1' ≤ b ∧ b ≤ '9' then [(digitVal b, rest)] else []) ++
    (if '1' ≤ a ∧ a ≤ '9' then [(digitVal a, b :: rest)] else [])
  | [a] => if '1' ≤ a ∧ a ≤ '9' then [(digitVal a, [])] else []
  | [] => []

/-- `%d` alternatives in regex order: `3[01]`, `[12][0-9]`, `0[1-9]`,
`[1-9]`. -/
def dayCands : List Char → List (Nat × List Char)
  | a :: b :: rest =>
    (if a = '3' ∧ (b = '0' ∨ b = '1') then [(30 + digitVal b, rest)] else []) ++
    (if ('1' ≤ a ∧ a ≤ '2') ∧ b.isDigit
      then [(10 * digitVal a + digitVal b, rest)] else []) ++
    (if a = '0' ∧ '1' ≤ b ∧ b ≤ '9' then [(digitVal b, rest)] else []) ++
    (if '1' ≤ a ∧ a ≤ '9' then [(digitVal a, b :: rest)] else [])
  | [a] => if '1' ≤ a ∧ a ≤ '9' then [(digitVal a, [])] else []
  | [] => []

/-- Full English month names with their numbers (`%B`). -/
def monthNames : List (String × Nat) :=
  [("january", 1), ("february", 2), ("march", 3), ("april", 4), ("may", 5),
   ("june", 6), ("july", 7), ("august", 8), ("september", 9), ("october", 10),
   ("november", 11), ("december", 12)]

/-- `%B`: match a full month name case-insensitively (no month name is a
proper left segment of another, so at most one alternative matches). -/
def monthNameCands (cs : List Char) : List (Nat × List Char) :=
  monthNames.filterMap (fun p =>
    if (cs.take p.1.length).map asciiLowerChar = p.1.data then
      some (p.2, cs.drop p.1.length)
    else none)

/-- A literal character in the format. -/
def expectChar (c : Char) : List Char → Option (List Char)
  | x :: rest => if x = c then some rest else none
  | [] => none

/-- A space in the format: one or more whitespace characters. -/
def skipWs1 (cs : List Char) : Option (List Char) :=
  if (cs.takeWhile Char.isWhitespace).isEmpty then none
  else some (cs.dropWhile Char.isWhitespace)

/-- `datetime.date` construction: validates year, month and day. -/
def mkValidDate (y m d : Nat) : Option Date :=
  if 1 ≤ y ∧ y ≤ 9999 ∧ 1 ≤ m ∧ m ≤ 12 ∧ 1 ≤ d ∧ d ≤ daysInMonth (y : Int) m
  then some (Date.mk (y : Int) m d) else none

/-- Modelled from the standard library: `strptime` with `"%Y-%m-%d"`. -/
def strptimeYmd (cs : List Char) : Option Date :=
  (takeYear4 cs).bind fun yc =>
    (expectChar '-' yc.2).bind fun r2 =>
      (monthCands r2).findSome? fun mc =>
        (expectChar '-' mc.2).bind fun r3 =>
          (dayCands r3).findSome? fun dc =>
            if dc.2 = [] then mkValidDate yc.1 mc.1 dc.1 else none

/-- Modelled from the standard library: `strptime` with `"%m/%d/%Y"`. -/
def strptimeMdy (cs : List Char) : Option Date :=
  (monthCands cs).findSome? fun mc =>
    (expectChar '/' mc.2).bind fun r2 =>
      (dayCands r2).findSome? fun dc =>
        (expectChar '/' dc.2).bind fun r3 =>
          (takeYear4 r3).bind fun yc =>
            if yc.2 = [] then mkValidDate yc.1 mc.1 dc.1 else none

/-- Modelled from the standard library: `strptime` with `"%d/%m/%Y"`. -/
def strptimeDmy (cs : List Char) : Option Date :=
  (dayCands cs).findSome? fun dc =>
    (expectChar '/' dc.2).bind fun r2 =>
      (monthCands r2).findSome? fun mc =>
        (expectChar '/' mc.2).bind fun r3 =>
          (takeYear4 r3).bind fun yc =>
            if yc.2 = [] then mkValidDate yc.1 mc.1 dc.1 else none

/-- Modelled from the standard library: `strptime` with `"%B %d, %Y"`. -/
def strptimeBdY (cs : List Char) : Option Date :=
  (monthNameCands cs).findSome? fun mc =>
    (skipWs1 mc.2).bind fun r2 =>
      (dayCands r2).findSome? fun dc =>
        (expectChar ',' dc.2).bind fun r3 =>
          (skipWs1 r3).bind fun r4 =>
            (takeYear4 r4).bind fun yc =>
              if yc.2 = [] then mkValidDate yc.1 mc.1 dc.1 else none

/-- The format list of `DataProcessor._parse_date`, in source order. -/
def dateFormats : List String := ["%Y-%m-%d", "%m/%d/%Y", "%d/%m/%Y", "%B %d, %Y"]

/-- Modelled from the standard library:
`datetime.strptime(s, fmt).date()` as `Option`, for the formats the
repository uses. -/
def strptimeDate (fmt : String) (s : String) : Option Date :=
  if fmt = "%Y-%m-%d" then strptimeYmd s.data
  else if fmt = "%m/%d/%Y" then strptimeMdy s.data
  else if fmt = "%d/%m/%Y" then strptimeDmy s.data
  else if fmt = "%B %d, %Y" then strptimeBdY s.data
  else none

/-- The loop of `DataProcessor._parse_date`: first successful format wins. -/
def tryFormats (s : String) : List String → Option Date
  | [] => none
  | f :: fs =>
    match strptimeDate f s with
    | some d => some d
    | none => tryFormats s fs

/-- `DataProcessor._parse_date`. -/
def parseDate (s : String) : Option Date :=
  if s = "" then none else tryFormats s dateFormats

/-- Python `str.strip()`: remove leading and trailing whitespace. -/
def pyStrip (s : String) : String :=
  String.mk (((s.data.dropWhile Char.isWhitespace).reverse.dropWhile
    Char.isWhitespace).reverse)

/-- A CSV row as seen by `DataProcessor._parse_csv_row`: `row.get(key, '')`
for the keys Task ID, Task Name, Start Date, Due Date, Category,
Dependencies and Description (a missing key is the empty string). -/
structure CsvRow where
  taskId : String
  taskName : String
  startDateStr : String
  dueDateStr : String
  category : String
  dependencies : String
  description : String
deriving DecidableEq, Repr

/-- `DataProcessor._parse_csv_row`: `Except.error` embeds an escaping
exception (the `Task` constructor's `ValueError`), `Except.ok none` embeds
`return None`. -/
def parseCsvRow (row : CsvRow) : Except String (Option Task) :=
  let taskId := pyStrip row.taskId
  let taskName := pyStrip row.taskName
  let startDateStr := pyStrip row.startDateStr
  let dueDateStr := pyStrip row.dueDateStr
  let category := pyStrip row.category
  if taskId = "" ∨ taskName = "" ∨ startDateStr = "" ∨ dueDateStr = "" then
    .ok none
  else
    match parseDate startDateStr, parseDate dueDateStr with
    | some sd, some dd =>
        (mkTask taskId taskName sd dd category
          (pyStrip row.dependencies) (pyStrip row.description)).map some
    | _, _ => .ok none

/-- The row loop of `DataProcessor._read_csv_data` with its row counter
(rows are numbered from 2; the header is row 1): a raised exception is
logged as `"Row N: msg"` and the row skipped; a `None` result is skipped
with no warning. -/
def readCsvAux (rowNum : Nat) : List CsvRow → List Task × List String
  | [] => ([], [])
  | r :: rs =>
    let rest := readCsvAux (rowNum + 1) rs
    match parseCsvRow r with
    | .error e => (rest.1, ("Row " ++ toString rowNum ++ ": " ++ e) :: rest.2)
    | .ok none => rest
    | .ok (some t) => (t :: rest.1, rest.2)

/-- `DataProcessor._read_csv_data`, given the parsed CSV rows: returns the
tasks together with the warnings the loop logged. -/
def readCsvData (rows : List CsvRow) : List Task × List String :=
  readCsvAux 2 rows

/-- `true` exactly when the computation raised. -/
def exceptIsError {ε α : Type} : Except ε α → Bool
  | .error _ => true
  | .ok _ => false

theorem tryFormats_eq_findSome (s : String) (l : List String) :
    tryFormats s l = l.findSome? (fun f => strptimeDate f s) := by
  induction l with
  | nil => rfl
  | cons f fs ih =>
    simp only [tryFormats, List.findSome?_cons]
    cases strptimeDate f s <;> simp [ih]

/-- C7: For every date string, _parse_date tries the formats %Y-%m-%d,
%m/%d/%Y, %d/%m/%Y, %B %d, %Y in that order and returns the date parsed
by the first format that matches, and returns None when the string is
empty or matches none of them; and _parse_csv_row returns no Task for a
row in which any of Task ID, Task Name, Start Date, Due Date is missing
or blank. -/
theorem parse_date_formats_and_required_fields :
    parseDate "" = none ∧
    (∀ s, s ≠ "" → parseDate s = dateFormats.findSome? (fun f => strptimeDate f s)) ∧
    (∀ row : CsvRow, (pyStrip row.taskId = "" ∨ pyStrip row.taskName = "" ∨
        pyStrip row.startDateStr = "" ∨ pyStrip row.dueDateStr = "") →
      parseCsvRow row = .ok none) := by
  refine ⟨rfl, ?_, ?_⟩
  · intro s hs
    simp only [parseDate, if_neg hs]
    exact tryFormats_eq_findSome s dateFormats
  · intro row hrow
    simp only [parseCsvRow]
    rw [if_pos hrow]

/-- A row whose Task Name is only whitespace. -/
def csvRowWsName : CsvRow :=
  { taskId := "T9", taskName := " ", startDateStr := "2024-01-01",
    dueDateStr := "2024-01-02", category := "", dependencies := "",
    description := "" }

/-- Witness for C7 at concrete inputs: a string matched by the second
format, and a row with a blank Task Name. -/
theorem parse_date_formats_and_required_fields_witness :
    parseDate "03/04/2021" =
      dateFormats.findSome? (fun f => strptimeDate f "03/04/2021") ∧
    parseCsvRow csvRowWsName = .ok none :=
  ⟨parse_date_formats_and_required_fields.2.1 "03/04/2021" (by decide),
   parse_date_formats_and_required_fields.2.2 csvRowWsName
     (Or.inr (Or.inl (by decide)))⟩

theorem readCsvAux_spec (n : Nat) (rows : List CsvRow) :
    (readCsvAux n rows).1 = rows.filterMap (fun r =>
        match parseCsvRow r with | .ok (some t) => some t | _ => none) ∧
    (readCsvAux n rows).2.length =
      (rows.filter (fun r => exceptIsError (parseCsvRow r))).length := by
  induction rows generalizing n with
  | nil => exact ⟨rfl, rfl⟩
  | cons r rs ih =>
    have h := ih (n + 1)
    rcases he : parseCsvRow r with e | o
    · simp [readCsvAux, he, List.filterMap_cons, List.filter_cons, exceptIsError,
        h.1, h.2]
    · cases o <;>
        simp [readCsvAux, he, List.filterMap_cons, List.filter_cons, exceptIsError,
          h.1, h.2]

/-- C4 (amended): the tasks returned are exactly the rows whose parse
yields a Task, in order; the number of recorded warnings is exactly the
number of rows whose parse raises (a missing required field or an
unparseable date yields no warning, only a raised Task-constructor error
does); the loop is total, so a bad row never aborts the run. -/
theorem csv_row_error_handling (rows : List CsvRow) :
    (readCsvData rows).1 = rows.filterMap (fun r =>
        match parseCsvRow r with | .ok (some t) => some t | _ => none) ∧
    (readCsvData rows).2.length =
      (rows.filter (fun r => exceptIsError (parseCsvRow r))).length :=
  readCsvAux_spec 2 rows

/-- A row whose Task Name is blank but is otherwise valid. -/
def csvRowBlankName : CsvRow :=
  { taskId := "T1", taskName := "", startDateStr := "2024-01-01",
    dueDateStr := "2024-01-05", category := "", dependencies := "",
    description := "" }

/-- C4 counterexample: a row with a missing required field fails to parse,
yet `_read_csv_data` records no warning for it — it is skipped silently,
contradicting the claim that every failing row is recorded as a warning. -/
theorem csv_blank_row_silently_skipped :
    parseCsvRow csvRowBlankName = .ok none ∧
    readCsvData [csvRowBlankName] = ([], []) := by
  constructor
  · decide
  · decide

/-! ### `debug_system.py`: the Ad-Hoc debugger -/

/-- Python `needle.isPrefix`-style check on character lists: does the
second list start with the first? -/
def listStartsWith : List Char → List Char → Bool
  | [], _ => true
  | _ :: _, [] => false
  | a :: as, b :: bs => a == b && listStartsWith as bs

/-- Substring containment on character lists (Python `needle in hay`). -/
def containsList : List Char → List Char → Bool
  | [], needle => needle.isEmpty
  | h :: t, needle => listStartsWith needle (h :: t) || containsList t needle

/-- Python `needle in hay` on strings. -/
def pyContains (hay needle : String) : Bool := containsList hay.data needle.data

/-- `IssueComplexity` enum. -/
inductive IssueComplexity
  | simple
  | complex
deriving DecidableEq, Repr

/-- `DebugStatus` enum. -/
inductive DebugStatus
  | pending
  | inProgress
  | resolved
  | failed
  | escalated
deriving DecidableEq, Repr

/-- The single `complexity_indicators` list of
`AdHocDebugger.assess_issue_complexity`, in source order: the source
comments label the first seven entries as simple-issue indicators and
the last ten as complex-issue indicators, but the code slices the list
as `[:6]` and `[6:]`. -/
def complexityIndicators : List String :=
  ["syntax error", "import error", "typo", "missing file",
   "configuration error", "permission denied", "file not found",
   "race condition", "memory leak", "deadlock", "performance issue",
   "integration error", "data corruption", "concurrent access",
   "distributed system", "network timeout", "database deadlock"]

/-- Modelled from the standard library: `str(error_context)` for a dict of
plain strings without escapes (`repr` wraps each string in single
quotes). -/
def pyStrDict (ctx : List (String × String)) : String :=
  "\x7b" ++ String.intercalate ", "
    (ctx.map fun p => "\x27" ++ p.1 ++ "\x27: \x27" ++ p.2 ++ "\x27") ++ "\x7d"

/-- Python truthiness test `error_context and len(str(error_context)) > 1000`
as a Boolean. -/
def ctxStrLong (errorContext : Option (List (String × String))) : Bool :=
  match errorContext with
  | some (p :: ps) => decide ((pyStrDict (p :: ps)).length > 1000)
  | _ => false

/-- The `combined_text` of `assess_issue_complexity`:
`f"{issue_lower} {error_text}"`, where `error_text` is the lowercased
space-join of the context values when the context dict is truthy and `""`
otherwise. -/
def combinedText (issueDescription : String)
    (errorContext : Option (List (String × String))) : String :=
  let issueLower := asciiLower issueDescription
  let errorText :=
    match errorContext with
    | some (p :: ps) => asciiLower (String.intercalate " " ((p :: ps).map Prod.snd))
    | _ => ""
  issueLower ++ " " ++ errorText

/-- `AdHocDebugger.assess_issue_complexity`: the error context is a dict
(`none` embeds `None`; Python truthiness makes `None` and the empty dict
both skip the context branches).  `str.lower` is modelled on ASCII. -/
def assessIssueComplexity (issueDescription : String)
    (errorContext : Option (List (String × String))) : IssueComplexity :=
  let combined := combinedText issueDescription errorContext
  let simpleCount :=
    (complexityIndicators.take 6).countP (fun ind => pyContains combined ind)
  let complexCount :=
    (complexityIndicators.drop 6).countP (fun ind => pyContains combined ind)
  let complexCount :=
    if issueDescription.length > 200 then complexCount + 1 else complexCount
  let complexCount :=
    if ctxStrLong errorContext then complexCount + 1 else complexCount
  let complexCount :=
    if pyContains combined "traceback" || pyContains combined "stack trace" then
      complexCount + 1
    else complexCount
  if simpleCount < complexCount then .complex else .simple

theorem ite_complex_iff (p : Prop) [Decidable p] :
    (if p then IssueComplexity.complex else IssueComplexity.simple)
      = IssueComplexity.complex ↔ p := by
  split <;> simp_all

theorem nested_ite_counts (s c : Nat) (b1 b2 b3 : Prop)
    [Decidable b1] [Decidable b2] [Decidable b3] :
    (s < (if b3 then
            (if b2 then (if b1 then c + 1 else c) + 1
             else (if b1 then c + 1 else c)) + 1
          else
            (if b2 then (if b1 then c + 1 else c) + 1
             else (if b1 then c + 1 else c)))) ↔
      (s < c + (if b1 then 1 else 0) + (if b2 then 1 else 0)
        + (if b3 then 1 else 0)) := by
  split_ifs <;> omega

/-- C6 counterexample: on the description "traceback" with no error
context the assessment returns COMPLEX although not a single entry of the
fixed keyword list occurs in the combined text, so every keyword count is
0 and the claimed "complex indicators strictly exceed simple indicators"
test is false. -/
theorem complexity_not_keyword_count_only :
    assessIssueComplexity "traceback" none = IssueComplexity.complex ∧
    complexityIndicators.countP
      (fun ind => pyContains (combinedText "traceback" none) ind) = 0 := by
  constructor
  · decide
  · decide

/-- C6 (amended): COMPLEX is returned exactly when the count of found
complex-side indicators — the `[6:]` slice of the keyword list, which
starts at "file not found" despite its simple-issue comment — plus three
extra heuristic points (description longer than 200 characters, stringified
error context longer than 1000 characters, and the occurrence of
"traceback" or "stack trace") strictly exceeds the count of found
simple-side indicators (the `[:6]` slice); SIMPLE otherwise. -/
theorem complexity_assessment_amended (desc : String)
    (ctx : Option (List (String × String))) :
    assessIssueComplexity desc ctx = IssueComplexity.complex ↔
      (["syntax error", "import error", "typo", "missing file",
        "configuration error", "permission denied"] : List String).countP
          (fun ind => pyContains (combinedText desc ctx) ind) <
        (["file not found", "race condition", "memory leak", "deadlock",
          "performance issue", "integration error", "data corruption",
          "concurrent access", "distributed system", "network timeout",
          "database deadlock"] : List String).countP
            (fun ind => pyContains (combinedText desc ctx) ind)
          + (if desc.length > 200 then 1 else 0)
          + (if ctxStrLong ctx then 1 else 0)
          + (if pyContains (combinedText desc ctx) "traceback" ||
                pyContains (combinedText desc ctx) "stack trace"
              then 1 else 0) := by
  have htake : complexityIndicators.take 6 =
      ["syntax error", "import error", "typo", "missing file",
       "configuration error", "permission denied"] := rfl
  have hdrop : complexityIndicators.drop 6 =
      ["file not found", "race condition", "memory leak", "deadlock",
       "performance issue", "integration error", "data corruption",
       "concurrent access", "distributed system", "network timeout",
       "database deadlock"] := rfl
  simp only [assessIssueComplexity, htake, hdrop]
  rw [ite_complex_iff]
  exact nested_ite_counts _ _ _ _ _

/-- A debug attempt record (`DebugAttempt` dataclass); the wall-clock
fields `timestamp` and `duration_seconds` are omitted as real-time
values not involved in any claim. -/
structure DebugAttempt where
  attemptId : String
  description : String
  success : Bool
  errorMessage : Option String
  solution : Option String
deriving DecidableEq, Repr

/-- A debug session (`DebugSession` dataclass); wall-clock fields and the
delegation bookkeeping fields not touched by `attempt_local_debug` are
omitted. -/
structure DebugSession where
  sessionId : String
  issueId : String
  title : String
  description : String
  complexity : IssueComplexity
  status : DebugStatus
  attempts : List DebugAttempt
deriving DecidableEq, Repr

/-- `self.max_local_attempts = 2`. -/
def maxLocalAttempts : Nat := 2

/-- What executing `debug_function(*args, **kwargs)` did: returned a
value (stringified; `""` embeds a falsy result) or raised. -/
inductive DebugFnOutcome
  | success (result : String)
  | failure (errMsg : String)
deriving DecidableEq, Repr

/-- Lookup in `self.active_sessions` (a dict keyed by session id). -/
def lookupSession : List (String × DebugSession) → String → Option DebugSession
  | [], _ => none
  | (k, v) :: rest, sid => if k = sid then some v else lookupSession rest sid

/-- In-place value replacement for an existing dict key. -/
def updateSession :
    List (String × DebugSession) → String → DebugSession →
      List (String × DebugSession)
  | [], _, _ => []
  | (k, v) :: rest, sid, s =>
      if k = sid then (k, s) :: rest else (k, v) :: updateSession rest sid s

/-- `AdHocDebugger.attempt_local_debug`: raises (`Except.error`) when the
session is unknown or already has `max_local_attempts` attempts; otherwise
records the attempt, and escalates the session when the attempt failed and
the attempt count has reached `max_local_attempts`.  Returns the updated
session dict together with the attempt (the Python method mutates
`self.active_sessions`). -/
def attemptLocalDebug (sessions : List (String × DebugSession)) (sid : String)
    (attemptId : String) (outcome : DebugFnOutcome) :
    Except String (List (String × DebugSession) × DebugAttempt) :=
  match lookupSession sessions sid with
  | none => .error ("Session " ++ sid ++ " not found")
  | some session =>
    if maxLocalAttempts ≤ session.attempts.length then
      .error "Maximum local attempts (2) exceeded"
    else
      let attempt : DebugAttempt :=
        match outcome with
        | .success r =>
          { attemptId := attemptId,
            description :=
              "Local debug attempt " ++ toString (session.attempts.length + 1),
            success := true, errorMessage := none,
            solution :=
              some (if r = "" then "Debug function completed successfully" else r) }
        | .failure e =>
          { attemptId := attemptId,
            description :=
              "Local debug attempt " ++ toString (session.attempts.length + 1),
            success := false, errorMessage := some e, solution := none }
      let session2 := { session with attempts := session.attempts ++ [attempt] }
      let session3 :=
        if attempt.success = false ∧ maxLocalAttempts ≤ session2.attempts.length
        then { session2 with status := DebugStatus.escalated }
        else session2
      .ok (updateSession sessions sid session3, attempt)

theorem lookupSession_updateSession (sessions : List (String × DebugSession))
    (sid : String) (s : DebugSession) (h : (lookupSession sessions sid).isSome) :
    lookupSession (updateSession sessions sid s) sid = some s := by
  induction sessions with
  | nil => simp [lookupSession] at h
  | cons kv rest ih =>
    obtain ⟨k, v⟩ := kv
    by_cases hk : k = sid
    · simp [lookupSession, updateSession, hk]
    · simp only [lookupSession, updateSession, if_neg hk] at h ⊢
      exact ih h

/-- C10: max_local_attempts is 2; for every debug session that already has
max_local_attempts recorded attempts, attempt_local_debug raises
ValueError (returning no updated state, so the session is unmodified); and
when an attempt fails and brings the session's attempt count to
max_local_attempts, the session's status is set to ESCALATED. -/
theorem attempt_local_debug_limit_and_escalation :
    maxLocalAttempts = 2 ∧
    (∀ sessions sid aid outcome session,
        lookupSession sessions sid = some session →
        maxLocalAttempts ≤ session.attempts.length →
        ∃ msg, attemptLocalDebug sessions sid aid outcome = .error msg) ∧
    (∀ sessions sid aid e session,
        lookupSession sessions sid = some session →
        session.attempts.length + 1 = maxLocalAttempts →
        ∃ out, attemptLocalDebug sessions sid aid (.failure e) = .ok out ∧
          ∃ s2, lookupSession out.1 sid = some s2 ∧
            s2.status = DebugStatus.escalated ∧
            s2.attempts.length = maxLocalAttempts) := by
  refine ⟨rfl, ?_, ?_⟩
  · intro sessions sid aid outcome session hlook hlen
    simp only [attemptLocalDebug, hlook]
    rw [if_pos hlen]
    exact ⟨_, rfl⟩
  · intro sessions sid aid e session hlook hlen
    have hnot : ¬ maxLocalAttempts ≤ session.attempts.length := by omega
    simp only [attemptLocalDebug, hlook]
    rw [if_neg hnot]
    rw [if_pos]
    · refine ⟨_, rfl, ?_⟩
      refine ⟨_, lookupSession_updateSession sessions sid _ (by simp [hlook]), rfl, ?_⟩
      simp [hlen]
    · constructor
      · trivial
      · simp only [List.length_append, List.length_cons, List.length_nil]
        omega

/-- Witness session whose single attempt has failed. -/
def sessionOneAttempt : DebugSession :=
  { sessionId := "s1", issueId := "i1", title := "t", description := "d",
    complexity := IssueComplexity.simple, status := DebugStatus.inProgress,
    attempts := [{ attemptId := "a1", description := "Local debug attempt 1",
                   success := false, errorMessage := some "boom",
                   solution := none }] }

/-- Witness session already at the attempt limit. -/
def sessionTwoAttempts : DebugSession :=
  { sessionId := "s2", issueId := "i2", title := "t", description := "d",
    complexity := IssueComplexity.simple, status := DebugStatus.inProgress,
    attempts := [{ attemptId := "a1", description := "Local debug attempt 1",
                   success := false, errorMessage := some "boom",
                   solution := none },
                 { attemptId := "a2", description := "Local debug attempt 2",
                   success := false, errorMessage := some "boom",
                   solution := none }] }

/-- Witness for C10 at concrete sessions. -/
theorem attempt_local_debug_limit_and_escalation_witness :
    (∃ msg, attemptLocalDebug [("s2", sessionTwoAttempts)] "s2" "a9"
        (.failure "x") = .error msg) ∧
    (∃ out, attemptLocalDebug [("s1", sessionOneAttempt)] "s1" "a2"
        (.failure "y") = .ok out ∧
      ∃ s2, lookupSession out.1 "s1" = some s2 ∧
        s2.status = DebugStatus.escalated ∧
        s2.attempts.length = maxLocalAttempts) :=
  ⟨attempt_local_debug_limit_and_escalation.2.1 [("s2", sessionTwoAttempts)]
      "s2" "a9" (.failure "x") sessionTwoAttempts (by decide) (by decide),
   attempt_local_debug_limit_and_escalation.2.2 [("s1", sessionOneAttempt)]
      "s1" "a2" "y" sessionOneAttempt (by decide) (by decide)⟩

/-! ### `repo/generate_timeline.py`: the HTML/SVG timeline layout

`generate_html` computes `dmin = min(t["start"]) - timedelta(days=2)`,
`dmax = max(t["due"]) + timedelta(days=2)` and
`total_days = max(1, (dmax - dmin).days)`, and maps a date `d` to the
x-coordinate
`x_pos(d) = padding_left + (width - padding_left - padding_right) *
((d - dmin).days / total_days)`.
Python `date ± timedelta(days=k)` and `(a - b).days` act on the ordinal,
so the layout quantities are embedded at the ordinal level; the real
arithmetic is embedded in `ℚ` (the float expression involves small exact
integers, and the properties proved are order facts of the rational
value). -/

/-- A task dict of `generate_timeline.py`, restricted to the fields the
date layout reads. -/
structure HtmlTask where
  id : String
  name : String
  lane : String
  start : Date
  due : Date
deriving DecidableEq, Repr

/-- `width = 1500`. -/
def width : ℚ := 1500

/-- `padding_left = 560`. -/
def padding_left : ℚ := 560

/-- `padding_right = 40`. -/
def padding_right : ℚ := 40

/-- The ordinal of `dmin`: minimum task start minus two days. -/
def dminOrd (t : HtmlTask) (ts : List HtmlTask) : Int :=
  (pyMinDate t.start (ts.map HtmlTask.start)).toOrdinal - 2

/-- The ordinal of `dmax`: maximum task due date plus two days. -/
def dmaxOrd (t : HtmlTask) (ts : List HtmlTask) : Int :=
  (pyMaxDate t.due (ts.map HtmlTask.due)).toOrdinal + 2

/-- `total_days = max(1, (dmax - dmin).days)`. -/
def total_days (t : HtmlTask) (ts : List HtmlTask) : Int :=
  max 1 (dmaxOrd t ts - dminOrd t ts)

/-- `x_pos` on day ordinals: `(d - dmin).days` is the ordinal difference. -/
def x_pos (dmin totalDays : Int) (dOrd : Int) : ℚ :=
  padding_left + (width - padding_left - padding_right) *
    (((dOrd - dmin : Int) : ℚ) / ((totalDays : Int) : ℚ))

/-- C8: For every non-empty task list in the HTML timeline generator, the
bar x-coordinate is the affine function
x_pos(d) = padding_left + (width - padding_left - padding_right) *
(d - dmin).days / total_days of the day offset from dmin; consequently for
any two dates d1 ≤ d2, x_pos(d1) ≤ x_pos(d2), and x_pos(dmin) =
padding_left. -/
theorem xpos_affine_monotone (t : HtmlTask) (ts : List HtmlTask)
    (d1 d2 : Date) (h : d1.toOrdinal ≤ d2.toOrdinal) :
    x_pos (dminOrd t ts) (total_days t ts) d1.toOrdinal ≤
      x_pos (dminOrd t ts) (total_days t ts) d2.toOrdinal ∧
    x_pos (dminOrd t ts) (total_days t ts) (dminOrd t ts) = padding_left := by
  have h1 : (1 : Int) ≤ total_days t ts := le_max_left _ _
  have htd : (0 : ℚ) < ((total_days t ts : Int) : ℚ) := by
    have : (0 : Int) < total_days t ts := lt_of_lt_of_le Int.zero_lt_one h1
    exact_mod_cast this
  constructor
  · unfold x_pos
    have hnum : ((d1.toOrdinal - dminOrd t ts : Int) : ℚ) ≤
        ((d2.toOrdinal - dminOrd t ts : Int) : ℚ) := by
      exact_mod_cast sub_le_sub_right h (dminOrd t ts)
    have hdiv := (div_le_div_iff_of_pos_right htd).mpr hnum
    have hslope : (0 : ℚ) ≤ width - padding_left - padding_right := by
      norm_num [width, padding_left, padding_right]
    exact add_le_add_left (mul_le_mul_of_nonneg_left hdiv hslope) _
  · unfold x_pos
    simp

/-- A concrete HTML-layout task used in the C8 witness. -/
def htaskT : HtmlTask :=
  { id := "T", name := "T", lane := "L",
    start := Date.mk 2024 5 1, due := Date.mk 2024 5 20 }

/-- Witness for C8 at one concrete task and two concrete dates. -/
theorem xpos_affine_monotone_witness :
    (x_pos (dminOrd htaskT []) (total_days htaskT [])
        (Date.mk 2024 5 3).toOrdinal ≤
      x_pos (dminOrd htaskT []) (total_days htaskT [])
        (Date.mk 2024 5 15).toOrdinal) ∧
    x_pos (dminOrd htaskT []) (total_days htaskT []) (dminOrd htaskT [])
      = padding_left :=
  xpos_affine_monotone htaskT [] (Date.mk 2024 5 3) (Date.mk 2024 5 15)
    (by decide)

/-! ### `app.py`: `Application.run`

`run` executes argument validation, generation and a final print block
inside one `try` whose handlers are `except KeyboardInterrupt: return 130`
and `except Exception: return 1`.  Each sub-step is embedded by its
outcome: it completed with a value, raised `KeyboardInterrupt`, or raised
an `Exception`.  `generate_latex_file` has its own `except Exception`
returning `False` (its `except` block's own failures are caught by a
nested handler, so it still returns `False`); `KeyboardInterrupt` is not
an `Exception` subclass and escapes it. -/

/-- Outcome of executing a Python code block. -/
inductive StepOutcome (α : Type)
  | ok (a : α)
  | kbInterrupt
  | exc (msg : String)
deriving DecidableEq, Repr

/-- `Application.generate_latex_file` as a function of its try-body
outcome: a completed body returns `True`, an `Exception` is caught and
turns into `False`, `KeyboardInterrupt` escapes. -/
def generateLatexFile (body : StepOutcome Unit) : StepOutcome Bool :=
  match body with
  | .ok _ => .ok true
  | .kbInterrupt => .kbInterrupt
  | .exc _ => .ok false

/-- The outcomes of the sub-steps `run` executes: `validate_arguments`
(its (is_valid, errors) result or a raise), the body of
`generate_latex_file`, and the success-path print block. -/
structure RunEnv where
  validateArgs : StepOutcome (Bool × List String)
  generateBody : StepOutcome Unit
  printStep : StepOutcome Unit
deriving DecidableEq, Repr

/-- `Application.run`: returns the process exit code. -/
def appRun (env : RunEnv) : Int :=
  match env.validateArgs with
  | .kbInterrupt => 130
  | .exc _ => 1
  | .ok (isValid, _errs) =>
    if isValid = false then 1
    else
      match generateLatexFile env.generateBody with
      | .kbInterrupt => 130
      | .exc _ => 1
      | .ok success =>
        if success = false then 1
        else
          match env.printStep with
          | .kbInterrupt => 130
          | .exc _ => 1
          | .ok _ => 0

/-- C5: run catches every exception and always returns an exit code — 0
exactly on full success, 1 when argument validation fails, generation
fails or returns failure, or an (ordinary) exception is raised anywhere,
and 130 when KeyboardInterrupt is raised at any reached step; run never
propagates an exception (it is a total function into {0, 1, 130}). -/
theorem run_exit_codes :
    (∀ env, appRun env = 0 ∨ appRun env = 1 ∨ appRun env = 130) ∧
    (∀ env errs, env.validateArgs = .ok (true, errs) →
      generateLatexFile env.generateBody = .ok true →
      env.printStep = .ok () → appRun env = 0) ∧
    (∀ env errs, env.validateArgs = .ok (false, errs) → appRun env = 1) ∧
    (∀ env errs, env.validateArgs = .ok (true, errs) →
      generateLatexFile env.generateBody = .ok false → appRun env = 1) ∧
    (∀ env m, env.validateArgs = .exc m → appRun env = 1) ∧
    (∀ env errs m, env.validateArgs = .ok (true, errs) →
      env.generateBody = .exc m → appRun env = 1) ∧
    (∀ env errs m, env.validateArgs = .ok (true, errs) →
      generateLatexFile env.generateBody = .ok true →
      env.printStep = .exc m → appRun env = 1) ∧
    (∀ env, env.validateArgs = .kbInterrupt → appRun env = 130) ∧
    (∀ env errs, env.validateArgs = .ok (true, errs) →
      env.generateBody = .kbInterrupt → appRun env = 130) ∧
    (∀ env errs, env.validateArgs = .ok (true, errs) →
      generateLatexFile env.generateBody = .ok true →
      env.printStep = .kbInterrupt → appRun env = 130) := by
  refine ⟨?_, ?_, ?_, ?_, ?_, ?_, ?_, ?_, ?_, ?_⟩
  · intro env
    rcases env with ⟨v, g, p⟩
    rcases v with ⟨_ | _, errs⟩ | _ | m <;>
      rcases g with ⟨⟩ | _ | m2 <;>
        rcases p with ⟨⟩ | _ | m3 <;>
          simp [appRun, generateLatexFile]
  · intro env errs hv hg hp
    simp [appRun, hv, hg, hp]
  · intro env errs hv
    simp [appRun, hv]
  · intro env errs hv hg
    simp [appRun, hv, hg]
  · intro env m hv
    simp [appRun, hv]
  · intro env errs m hv hg
    simp [appRun, hv, generateLatexFile, hg]
  · intro env errs m hv hg hp
    simp [appRun, hv, hg, hp]
  · intro env hv
    simp [appRun, hv]
  · intro env errs hv hg
    simp [appRun, hv, generateLatexFile, hg]
  · intro env errs hv hg hp
    simp [appRun, hv, hg, hp]

/-- A run in which every step completes. -/
def envSuccess : RunEnv :=
  { validateArgs := .ok (true, []), generateBody := .ok (), printStep := .ok () }

/-- A run whose argument validation reports errors. -/
def envBadArgs : RunEnv :=
  { validateArgs := .ok (false, ["Title cannot be empty"]),
    generateBody := .ok (), printStep := .ok () }

/-- A run whose generation body raises an Exception. -/
def envGenExc : RunEnv :=
  { validateArgs := .ok (true, []), generateBody := .exc "boom",
    printStep := .ok () }

/-- A run whose argument validation raises an Exception. -/
def envValExc : RunEnv :=
  { validateArgs := .exc "io", generateBody := .ok (), printStep := .ok () }

/-- A run whose final print block raises an Exception. -/
def envPrintExc : RunEnv :=
  { validateArgs := .ok (true, []), generateBody := .ok (),
    printStep := .exc "io" }

/-- A run interrupted during argument validation. -/
def envKbVal : RunEnv :=
  { validateArgs := .kbInterrupt, generateBody := .ok (), printStep := .ok () }

/-- A run interrupted during generation. -/
def envKbGen : RunEnv :=
  { validateArgs := .ok (true, []), generateBody := .kbInterrupt,
    printStep := .ok () }

/-- A run interrupted during the final print block. -/
def envKbPrint : RunEnv :=
  { validateArgs := .ok (true, []), generateBody := .ok (),
    printStep := .kbInterrupt }

/-- Witness for C5 applying every part of the theorem at concrete run
environments. -/
theorem run_exit_codes_witness :
    (appRun envSuccess = 0 ∨ appRun envSuccess = 1 ∨ appRun envSuccess = 130) ∧
    appRun envSuccess = 0 ∧
    appRun envBadArgs = 1 ∧
    (appRun envGenExc = 1 ∧ appRun envGenExc = 1) ∧
    appRun envValExc = 1 ∧
    appRun envPrintExc = 1 ∧
    appRun envKbVal = 130 ∧
    appRun envKbGen = 130 ∧
    appRun envKbPrint = 130 :=
  ⟨run_exit_codes.1 envSuccess,
   run_exit_codes.2.1 envSuccess [] rfl rfl rfl,
   run_exit_codes.2.2.1 envBadArgs ["Title cannot be empty"] rfl,
   ⟨run_exit_codes.2.2.2.1 envGenExc [] rfl rfl,
    run_exit_codes.2.2.2.2.2.1 envGenExc [] "boom" rfl rfl⟩,
   run_exit_codes.2.2.2.2.1 envValExc "io" rfl,
   run_exit_codes.2.2.2.2.2.2.1 envPrintExc [] "io" rfl rfl rfl,
   run_exit_codes.2.2.2.2.2.2.2.1 envKbVal rfl,
   run_exit_codes.2.2.2.2.2.2.2.2.1 envKbGen [] rfl rfl,
   run_exit_codes.2.2.2.2.2.2.2.2.2 envKbPrint [] rfl rfl rfl⟩

/-! ### `validate_timeline.py`: the timeline validation script

The script reads the CSV into a dict `tasks[task_id] -> row data`, runs
eight validations — duplicates, missing dependencies, circular
dependencies, orphaned tasks, ID format, timeline logic, same-phase
overlaps, gaps — collecting per-validation summary strings into `errors`
(validations 1, 2, 3, 6) and `warnings` (validations 4, 5, 7, 8), and
returns `False` iff `errors` is non-empty; `__main__` then calls
`sys.exit(0 if success else 1)`.  The dict is embedded as an association
list (keys unique as in a dict); each validation block below is one
definition. -/

/-- One row of the script's `tasks` dict (values of the columns it
stores). -/
structure TaskRow where
  row : Nat
  task : String
  dependencies : String
  phase : String
  subPhase : String
  startDate : String
  endDate : String
  objective : String
  milestone : String
  status : String
deriving DecidableEq, Repr

/-- Generic dict lookup on an association list. -/
def lookupAssoc {β : Type} : List (String × β) → String → Option β
  | [], _ => none
  | (k, v) :: rest, key => if k = key then some v else lookupAssoc rest key

/-- Python `s.split(',')` (empty pieces preserved). -/
def splitCommaAux : List Char → List Char → List String
  | [], acc => [String.mk acc.reverse]
  | c :: rest, acc =>
    if c = ',' then String.mk acc.reverse :: splitCommaAux rest []
    else splitCommaAux rest (c :: acc)

/-- Python `s.split(',')`. -/
def splitOnComma (s : String) : List String := splitCommaAux s.data []

/-- Python `s.strip('"')`: drop all leading and trailing quote
characters. -/
def stripQuotes (s : String) : String :=
  String.mk (((s.data.dropWhile (· = '"')).reverse.dropWhile (· = '"')).reverse)

/-- Python `s.startswith(t)`. -/
def pyStartsWith (s t : String) : Bool := listStartsWith t.data s.data

/-- Python `s.endswith(t)`. -/
def pyEndsWith (s t : String) : Bool := listStartsWith t.data.reverse s.data.reverse

/-- The script's dependency parsing, repeated at each validation: a
comma-separated string is split and each piece stripped of whitespace and
quotes; a comma-free string is merely stripped of whitespace. -/
def parseDeps (s : String) : List String :=
  if pyContains s "," then (splitOnComma s).map (fun d => stripQuotes (pyStrip d))
  else [pyStrip s]

/-- The script's `parse_date`: `strptime(date_str, '%Y-%m-%d')`, `None` on
any failure (the bare `except`). -/
def scriptParseDate (s : String) : Option Date := strptimeYmd s.data

/-- Validation 1: the duplicate scan loop (it iterates over the *set* of
ids with a fresh `seen_ids`, so it can never report anything). -/
def findDuplicatesLoop (ids : List String) : List String :=
  (ids.foldl (fun (acc : List String × List String) tid =>
      if tid ∈ acc.1 then (acc.1, acc.2 ++ [tid]) else (acc.1 ++ [tid], acc.2))
    ([], [])).2

/-- Validation 2: dependencies that name no existing task, as
`(task, missing_dep, row)` triples. -/
def missingDepsOf (tasks : List (String × TaskRow)) :
    List (String × String × Nat) :=
  tasks.flatMap (fun p =>
    if p.2.dependencies = "" then []
    else (parseDeps p.2.dependencies).filterMap (fun dep =>
      if dep ≠ "" ∧ dep ∉ tasks.map Prod.fst then some (p.1, dep, p.2.row)
      else none))

/-- Validation 3: `has_circular_dependency(task_id, visited, path)`.  The
Python recursion always terminates because every new call adds its id to
the shared `visited` set; the embedding passes `visited` explicitly and
spends one unit of fuel per nesting level, and is run with fuel exceeding
the number of ids that can ever enter `visited`.  The `for dep in deps`
loop with its early `return result` is the fold: once a cycle is found the
accumulator passes through unchanged. -/
def hasCircular (tasks : List (String × TaskRow)) :
    Nat → List String → List String → String →
      List String × Option (List String)
  | 0, visited, _, _ => (visited, none)
  | fuel + 1, visited, path, tid =>
    if tid ∈ path then
      (visited, some (path.drop (path.indexOf tid) ++ [tid]))
    else if tid ∈ visited then (visited, none)
    else
      let visited2 := visited ++ [tid]
      let path2 := path ++ [tid]
      match lookupAssoc tasks tid with
      | none => (visited2, none)
      | some info =>
        if info.dependencies = "" then (visited2, none)
        else
          (parseDeps info.dependencies).foldl
            (fun acc dep =>
              match acc with
              | (_, some _) => acc
              | (v, none) =>
                if dep = "" then (v, none)
                else hasCircular tasks fuel v path2 dep)
            (visited2, none)

/-- Fuel that exceeds any possible `visited` growth: every key plus every
mentioned dependency, plus one. -/
def circularFuel (tasks : List (String × TaskRow)) : Nat :=
  tasks.length + (tasks.flatMap (fun p => parseDeps p.2.dependencies)).length + 1

/-- Validation 3: the cycles found starting from each task id (each start
gets a fresh `visited` and `path`). -/
def circularDepsOf (tasks : List (String × TaskRow)) : List (List String) :=
  (tasks.map Prod.fst).eraseDups.filterMap (fun tid =>
    (hasCircular tasks (circularFuel tasks) [] [] tid).2)

/-- Validation 4: the `dependents` map as `(dep, dependent)` pairs. -/
def dependentsOf (tasks : List (String × TaskRow)) : List (String × String) :=
  tasks.flatMap (fun p =>
    if p.2.dependencies = "" then []
    else (parseDeps p.2.dependencies).filterMap (fun dep =>
      if dep ≠ "" then some (dep, p.1) else none))

/-- Validation 4: tasks with no dependencies and no dependents whose id is
not a `.M1`/`.M2`/`.M3` milestone. -/
def orphanedOf (tasks : List (String × TaskRow)) : List String :=
  (tasks.map Prod.fst).eraseDups.filter (fun tid =>
    (match lookupAssoc tasks tid with
     | some info => info.dependencies == ""
     | none => false) &&
    !((dependentsOf tasks).map Prod.fst).contains tid &&
    !pyEndsWith tid ".M1" && !pyEndsWith tid ".M2" && !pyEndsWith tid ".M3")

/-- Validation 5: task ids that are empty or do not match the expected
`T...` shapes. -/
def formatIssuesOf (tasks : List (String × TaskRow)) : List String :=
  (tasks.map Prod.fst).eraseDups.filterMap (fun tid =>
    if tid = "" then some "Empty task ID found"
    else if ¬(pyStartsWith tid "T" = true ∧
        (pyContains tid "." = true ∨ pyEndsWith tid "M1" = true ∨
         pyEndsWith tid "M2" = true ∨ pyEndsWith tid "M3" = true)) then
      some ("Unusual format: " ++ tid)
    else none)

/-- Validation 6: timeline-logic issues, as `(task, issue)` pairs (the
script stores dicts with a details string; the missing-columns branch is
dead because the dict rows always carry both date columns). -/
def timelineIssuesOf (tasks : List (String × TaskRow)) :
    List (String × String) :=
  tasks.flatMap (fun p =>
    if p.2.dependencies = "" then []
    else
      match scriptParseDate p.2.startDate, scriptParseDate p.2.endDate with
      | some taskStart, some taskEnd =>
        ((parseDeps p.2.dependencies).flatMap (fun dep =>
          if dep = "" then []
          else
            match lookupAssoc tasks dep with
            | none => []
            | some depInfo =>
              match scriptParseDate depInfo.startDate,
                  scriptParseDate depInfo.endDate with
              | some _, some depEnd =>
                (if taskStart.toOrdinal < depEnd.toOrdinal then
                  [(p.1, "Task starts before dependency ends")] else []) ++
                (if taskEnd.toOrdinal < depEnd.toOrdinal then
                  [(p.1, "Task ends before dependency ends")] else [])
              | _, _ => [(p.1, "Dependency has invalid date format")]))
        ++ (if taskEnd.toOrdinal < taskStart.toOrdinal then
              [(p.1, "Task starts after it ends")] else [])
      | _, _ => [(p.1, "Invalid date format")])

/-- Ordered pairs `(i, j)` with `i < j` of a list, as in the nested
`for i ... for j in range(i+1, ...)` loops. -/
def pairsAfter {α : Type} : List α → List (α × α)
  | [] => []
  | x :: xs => xs.map (fun y => (x, y)) ++ pairsAfter xs

/-- Validation 7: overlapping tasks within the same phase/sub-phase group,
as `(phase_key, task1, task2)` triples. -/
def overlapIssuesOf (tasks : List (String × TaskRow)) :
    List (String × String × String) :=
  ((tasks.map (fun p => p.2.phase ++ "|" ++ p.2.subPhase)).eraseDups).flatMap
    (fun key =>
      let group := tasks.filter (fun p => p.2.phase ++ "|" ++ p.2.subPhase = key)
      if group.length < 2 then []
      else (pairsAfter group).filterMap (fun pq =>
        match scriptParseDate pq.1.2.startDate, scriptParseDate pq.1.2.endDate,
            scriptParseDate pq.2.2.startDate, scriptParseDate pq.2.2.endDate with
        | some s1, some e1, some s2, some e2 =>
          if ¬(e1.toOrdinal ≤ s2.toOrdinal ∨ e2.toOrdinal ≤ s1.toOrdinal) then
            some (key, pq.1.1, pq.2.1)
          else none
        | _, _, _, _ => none))

/-- Validation 8: dependency gaps of more than 7 days, as
`(task, dependency)` pairs. -/
def gapIssuesOf (tasks : List (String × TaskRow)) : List (String × String) :=
  tasks.flatMap (fun p =>
    if p.2.dependencies = "" then []
    else (parseDeps p.2.dependencies).filterMap (fun dep =>
      if dep = "" then none
      else
        match lookupAssoc tasks dep with
        | none => none
        | some depInfo =>
          match scriptParseDate p.2.startDate, scriptParseDate depInfo.endDate with
          | some taskStart, some depEnd =>
            if 7 < taskStart.toOrdinal - depEnd.toOrdinal then some (p.1, dep)
            else none
          | _, _ => none))

/-- The `errors` list: one summary string per failing error-level
validation, in execution order (1, 2, 3, 6). -/
def errorsOf (tasks : List (String × TaskRow)) : List String :=
  (if findDuplicatesLoop (tasks.map Prod.fst).eraseDups ≠ [] then
    ["Duplicate Task IDs found: " ++
      toString (findDuplicatesLoop (tasks.map Prod.fst).eraseDups)] else []) ++
  (if missingDepsOf tasks ≠ [] then
    ["Missing dependencies found: " ++ toString (missingDepsOf tasks).length]
   else []) ++
  (if circularDepsOf tasks ≠ [] then
    ["Circular dependencies found: " ++ toString (circularDepsOf tasks).length]
   else []) ++
  (if timelineIssuesOf tasks ≠ [] then
    ["Timeline logic issues found: " ++ toString (timelineIssuesOf tasks).length]
   else [])

/-- The `warnings` list: one summary string per failing warning-level
validation, in execution order (4, 5, 7, 8). -/
def warningsOf (tasks : List (String × TaskRow)) : List String :=
  (if orphanedOf tasks ≠ [] then
    ["Orphaned tasks found: " ++ toString (orphanedOf tasks).length] else []) ++
  (if formatIssuesOf tasks ≠ [] then
    ["Task ID format issues: " ++ toString (formatIssuesOf tasks).length]
   else []) ++
  (if overlapIssuesOf tasks ≠ [] then
    ["Overlapping tasks found: " ++ toString (overlapIssuesOf tasks).length]
   else []) ++
  (if gapIssuesOf tasks ≠ [] then
    ["Large gaps found: " ++ toString (gapIssuesOf tasks).length] else [])

/-- `validate_timeline` given the parsed tasks dict: its return value
(`True` iff no errors) together with the collected errors and warnings. -/
def validateTimelineScript (tasks : List (String × TaskRow)) :
    Bool × List String × List String :=
  ((errorsOf tasks).isEmpty, errorsOf tasks, warningsOf tasks)

/-- The `__main__` block: `sys.exit(0 if success else 1)`. -/
def scriptExit (tasks : List (String × TaskRow)) : Int :=
  if (validateTimelineScript tasks).1 then 0 else 1

/-- `TaskValidator.validate_timeline` from `models.py`: returns error
strings for duplicate ids and for dependencies that reference ids absent
from the timeline (the duplicate message's Python list formatting is
rendered with Lean's list `toString`). -/
def taskValidatorValidateTimeline (tl : ProjectTimeline) : List String :=
  let taskIds := tl.tasks.map Task.id
  (if taskIds.length ≠ taskIds.eraseDups.length then
    ["Duplicate task IDs found: " ++
      toString (taskIds.eraseDups.filter (fun tid => 1 < taskIds.count tid))]
   else []) ++
  tl.tasks.flatMap (fun t =>
    if t.dependencies ≠ "" then
      ((splitOnComma t.dependencies).map pyStrip).filterMap (fun depId =>
        if depId ≠ "" ∧ depId ∉ taskIds then
          some ("Task \x27" ++ t.name ++
            "\x27 depends on non-existent task ID: " ++ depId)
        else none)
    else [])

/-- A task row depending on the non-existent id "TX". -/
def taskRowT11 : TaskRow :=
  { row := 2, task := "Do thing", dependencies := "TX", phase := "P1",
    subPhase := "S1", startDate := "2024-02-01", endDate := "2024-02-05",
    objective := "", milestone := "", status := "" }

/-- A one-task timeline whose only task depends on a missing id. -/
def tasksWithMissingDep : List (String × TaskRow) := [("T1.1", taskRowT11)]

/-- C3 counterexample: a dependency naming a non-existent task makes the
script's validate_timeline record an error (not a warning), return False,
and the run exit 1 — contradicting the claim that it produces only a
warning and never a failing exit. -/
theorem missing_dependency_fails_validation_run :
    (validateTimelineScript tasksWithMissingDep).1 = false ∧
    (validateTimelineScript tasksWithMissingDep).2.1 =
      ["Missing dependencies found: 1"] ∧
    (validateTimelineScript tasksWithMissingDep).2.2 = [] ∧
    scriptExit tasksWithMissingDep = 1 := by
  refine ⟨?_, ?_, ?_, ?_⟩ <;> decide

/-- C3 (amended): a task dependency that names a non-existent task is
recorded as an error, not a warning: the validate_timeline script returns
False and its run exits with code 1, and TaskValidator.validate_timeline
returns the reference in its list of errors.  (Only orphaned tasks, ID
format issues, same-phase overlaps and large gaps are mere warnings.) -/
theorem dependency_reference_is_error :
    (∀ tasks : List (String × TaskRow), ∀ p ∈ tasks,
      ∀ dep ∈ parseDeps p.2.dependencies,
        p.2.dependencies ≠ "" → dep ≠ "" → dep ∉ tasks.map Prod.fst →
        (validateTimelineScript tasks).1 = false ∧ scriptExit tasks = 1) ∧
    (∀ tl : ProjectTimeline, ∀ t ∈ tl.tasks,
      ∀ dep ∈ (splitOnComma t.dependencies).map pyStrip,
        t.dependencies ≠ "" → dep ≠ "" → dep ∉ tl.tasks.map Task.id →
        ("Task \x27" ++ t.name ++ "\x27 depends on non-existent task ID: " ++ dep)
          ∈ taskValidatorValidateTimeline tl) := by
  constructor
  · intro tasks p hp dep hdep hne hdepne hnotin
    have hmem : (p.1, dep, p.2.row) ∈ missingDepsOf tasks := by
      unfold missingDepsOf
      refine List.mem_flatMap.mpr ⟨p, hp, ?_⟩
      rw [if_neg hne]
      exact List.mem_filterMap.mpr ⟨dep, hdep, by rw [if_pos ⟨hdepne, hnotin⟩]⟩
    have hmd : missingDepsOf tasks ≠ [] := List.ne_nil_of_mem hmem
    have herr : errorsOf tasks ≠ [] := by
      unfold errorsOf
      rw [if_pos hmd]
      intro hcontra
      rcases List.append_eq_nil.mp hcontra with ⟨h12, _⟩
      rcases List.append_eq_nil.mp h12 with ⟨hab, _⟩
      rcases List.append_eq_nil.mp hab with ⟨_, hmsg⟩
      exact List.cons_ne_nil _ _ hmsg
    have hfalse : (validateTimelineScript tasks).1 = false := by
      rcases h : errorsOf tasks with _ | ⟨a, l⟩
      · exact absurd h herr
      · simp [validateTimelineScript, h]
    refine ⟨hfalse, ?_⟩
    unfold scriptExit
    rw [hfalse]
    rfl
  · intro tl t ht dep hdep hne hdepne hnotin
    unfold taskValidatorValidateTimeline
    refine List.mem_append.mpr (Or.inr ?_)
    refine List.mem_flatMap.mpr ⟨t, ht, ?_⟩
    rw [if_pos hne]
    exact List.mem_filterMap.mpr ⟨dep, hdep, by rw [if_pos ⟨hdepne, hnotin⟩]⟩

/-- A model-level task depending on the missing id "TX". -/
def taskDepX : Task :=
  { id := "A", name := "A", startDate := Date.mk 2024 1 1,
    dueDate := Date.mk 2024 1 5, category := "", dependencies := "TX",
    notes := "", isMilestone := false }

/-- A timeline whose only task depends on a missing id. -/
def tlDepX : ProjectTimeline :=
  { tasks := [taskDepX], title := "T", startDate := Date.mk 2024 1 1,
    endDate := Date.mk 2024 1 5 }

/-- Witness for C3 applying both parts at concrete inputs. -/
theorem dependency_reference_is_error_witness :
    ((validateTimelineScript tasksWithMissingDep).1 = false ∧
      scriptExit tasksWithMissingDep = 1) ∧
    ("Task \x27A\x27 depends on non-existent task ID: TX"
      ∈ taskValidatorValidateTimeline tlDepX) :=
  ⟨dependency_reference_is_error.1 tasksWithMissingDep ("T1.1", taskRowT11)
      (by decide) "TX" (by decide) (by decide) (by decide) (by decide),
   dependency_reference_is_error.2 tlDepX taskDepX (by decide) "TX"
      (by decide) (by decide) (by decide) (by decide)⟩

end Gantt
